import Mathlib

/-!
Shallow embedding of the FitLens recommendation backend
(`src/app/ml/utils/ml_scorer_utils.py`, `src/app/ml/ml_scorer.py`,
`src/app/routes/analyze.py`, `src/app/models.py`,
`src/app/utils/analyze_utils.py`).

Conventions:
- Python `Optional`/missing dict keys become `Option`.
- Python floats (model probabilities) become `ℚ`; they are only produced,
  compared and sorted, never subjected to rounding-sensitive arithmetic.
- Python's stable `list.sort(key=..., reverse=True)` is modelled by
  insertion sort with a "greater-or-equal goes first" relation, which is
  the stable descending sort.
-/

namespace FitLens

/-- Style strings; `models.py` restricts them to "casual"/"traditional",
which plays no role in the claims, so we keep plain strings. -/
abbrev Style := String

/-- The `Traits` record of `models.py` (all values are literal strings there). -/
structure Traits where
  skin_temperature : String
  skin_depth : String
  hair_type : String
  hair_color : String
  frame : String
  height_bucket : String
  shoulders : String
deriving DecidableEq, Repr

/-- An enriched product dict as consumed by `row_from` and the route:
base product columns plus the `price`/`mrp`/`sizes`/`in_stock` keys merged
in by the catalog join of `analyze.py`. `none` models a missing/null key. -/
structure Product where
  id : String
  title : String
  store : String
  url : String
  image : String
  tags : Option (List String)
  price : Option Int
  mrp : Option Int
  sizes : Option (List String)
  in_stock : Option Bool
deriving DecidableEq, Repr

/-- The eleven-column feature row built by `row_from`
(`ml_scorer_utils.py`, identical to `_row_from` in `ml_scorer.py`).
The structure has exactly the eleven keys of the Python dict. -/
structure FeatureRow where
  price : Int
  has_size : Nat
  style : Style
  skin_temperature : String
  skin_depth : String
  frame : String
  height_bucket : String
  shoulders : String
  color_tags : String
  fit_tags : String
  avoid_tags : String
deriving DecidableEq, Repr

/-- `row_from(prod, traits, style, size)` of `ml_scorer_utils.py`:
`price = int(prod.get("price") or 0)`;
`has_size = int(bool(size and size in (prod.get("sizes") or [])))`;
tags lowercased, empties dropped, joined with ";" into both
`color_tags` and `fit_tags`; `avoid_tags` always `""`. -/
def row_from (prod : Product) (traits : Traits) (style : Style)
    (size : Option String) : FeatureRow :=
  let price : Int := prod.price.getD 0
  let sizes : List String := prod.sizes.getD []
  let has_size : Nat :=
    if (match size with
        | some s => !s.isEmpty && sizes.contains s
        | none => false) then 1 else 0
  let tags : List String := (prod.tags.getD []).map String.toLower
  let semis : String := String.intercalate ";" (tags.filter (fun t => !t.isEmpty))
  { price := price
    has_size := has_size
    style := style
    skin_temperature := traits.skin_temperature
    skin_depth := traits.skin_depth
    frame := traits.frame
    height_bucket := traits.height_bucket
    shoulders := traits.shoulders
    color_tags := semis
    fit_tags := semis
    avoid_tags := "" }

/-- Modelled from the spec: the trained sklearn pipeline stored in the
`reco_lr.joblib` artifact (produced out-of-band by `train_model.py`) is
not part of the request-path source; per the spec's Batch Scorer contract
it maps each feature row independently to a match probability, so it is
modelled as a per-row scoring function into `ℚ`. -/
abbrev Pipe := FeatureRow → ℚ

/-- The fixed artifact path (`ML_DIR / "reco_lr.joblib"`), kept as the
repo-relative string since the runtime prefix is environment noise. -/
def MODEL_PATH : String := "src/app/ml/reco_lr.joblib"

/-- The training command named in the error message of `_load_pipe`. -/
def TRAIN_CMD : String := "python -m src.app.ml.train_model"

/-- The `FileNotFoundError` message raised by `_load_pipe` / `load_pipe`. -/
def modelNotFoundMsg : String :=
  "Model not found at " ++ MODEL_PATH ++ ". Train it with: " ++ TRAIN_CMD

/-- Modelled from the spec: the filesystem and the artifact's contents.
`modelExists` is `MODEL_PATH.exists()`; `diskPipe` is what `joblib.load`
would deserialize. Both live outside the request-path source. -/
structure ScorerEnv where
  modelExists : Bool
  diskPipe : Pipe

/-- The module-level mutable state of `ml_scorer.py`: the `_PIPE` cache,
plus a load counter observing how many times `joblib.load` ran. -/
structure ScorerState where
  cache : Option Pipe
  loadCount : Nat

/-- `_load_pipe()` of `ml_scorer.py` (identical to `load_pipe` of
`ml_scorer_utils.py`): if `_PIPE` is cached return it; otherwise check the
file exists (raising `FileNotFoundError` if not), load it, cache it. -/
def load_pipe (env : ScorerEnv) (st : ScorerState) :
    Except String (Pipe × ScorerState) :=
  match st.cache with
  | some p => Except.ok (p, st)
  | none =>
    if env.modelExists then
      Except.ok (env.diskPipe,
        { cache := some env.diskPipe, loadCount := st.loadCount + 1 })
    else
      Except.error modelNotFoundMsg

/-- `ml_predict_probas(rows)` of `ml_scorer.py`: `pipe = _load_pipe()`
first, then `if not rows: return []`, else one batched
`pipe.predict_proba(df)[:, 1].tolist()`, i.e. the per-row scores in input
order. -/
def ml_predict_probas (env : ScorerEnv) (st : ScorerState)
    (rows : List FeatureRow) : Except String (List ℚ × ScorerState) :=
  match load_pipe env st with
  | Except.error e => Except.error e
  | Except.ok (pipe, st') =>
    if rows.isEmpty then Except.ok ([], st')
    else Except.ok (rows.map pipe, st')

/-- A bare row of the `products` table as fetched in step 3 of
`analyze_and_recommend`. -/
structure DBProduct where
  id : String
  title : String
  store : String
  url : String
  image : String
  tags : Option (List String)
deriving DecidableEq, Repr

/-- A row of the `prices` table; `none` models a missing/null column. -/
structure PriceRow where
  product_id : String
  price : Option Int
  mrp : Option Int
  sizes : Option (List String)
  in_stock : Option Bool
deriving DecidableEq, Repr

/-- The dict comprehension `{row["product_id"]: row for row in data}`
followed by `.get(pid)`: the last row with the given id wins. -/
def priceMapGet (priceRows : List PriceRow) (pid : String) : Option PriceRow :=
  (priceRows.filter (fun r => r.product_id == pid)).getLast?

/-- One entry of the `enriched` list of `analyze_and_recommend`:
`{**p, "price": pr.get("price"), "mrp": pr.get("mrp"),
"sizes": pr.get("sizes") or [], "in_stock": pr.get("in_stock", True)}`. -/
def enrichOne (p : DBProduct) (pr : PriceRow) : Product :=
  { id := p.id
    title := p.title
    store := p.store
    url := p.url
    image := p.image
    tags := p.tags
    price := pr.price
    mrp := pr.mrp
    sizes := some (pr.sizes.getD [])
    in_stock := some (pr.in_stock.getD true) }

/-- Step 4 of `analyze_and_recommend`: products without a joined price row
are silently skipped, the rest are enriched. -/
def enrich (products : List DBProduct) (priceRows : List PriceRow) :
    List Product :=
  products.filterMap (fun p => (priceMapGet priceRows p.id).map (enrichOne p))

/-- The step-5 predicate `p.get("in_stock", True) and (p.get("price") is
not None)`. -/
def keepCandidate (p : Product) : Bool :=
  p.in_stock.getD true && p.price.isSome

/-- The `filtered` candidate list of `analyze_and_recommend` (steps 4-5). -/
def candidates (products : List DBProduct) (priceRows : List PriceRow) :
    List Product :=
  (enrich products priceRows).filter keepCandidate

/-- The Python condition `size and size in (p.get("sizes") or [])`. -/
def sizeHit (size : Option String) (p : Product) : Bool :=
  match size with
  | none => false
  | some s => !s.isEmpty && (p.sizes.getD []).contains s

/-- The `why` construction of `analyze_and_recommend` step 6: append
"in stock in your size" when the size matches, then the price string when
a price is present, and fall back to `["good predicted match"]` when the
list stayed empty (`why or ["good predicted match"]`). -/
def buildWhy (size : Option String) (p : Product) : List String :=
  let why0 : List String :=
    if sizeHit size p then ["in stock in your size"] else []
  let why1 : List String :=
    match p.price with
    | some v => why0 ++ ["price ₹" ++ toString v]
    | none => why0
  if why1.isEmpty then ["good predicted match"] else why1

/-- One element of the `scored` list: `(float(s), p, why)`. -/
structure ScoredItem where
  score : ℚ
  product : Product
  why : List String
deriving DecidableEq, Repr

/-- The ordering used to model `scored.sort(key=lambda t: t[0],
reverse=True)`: `a` may come before `b` exactly when `a`'s score is
greater or equal. Ties keep the earlier element first, matching the
stability Python guarantees. -/
abbrev scoreGE : ScoredItem → ScoredItem → Prop := fun a b => b.score ≤ a.score

instance : IsTotal ScoredItem scoreGE := ⟨fun a b => le_total b.score a.score⟩

instance : IsTrans ScoredItem scoreGE := ⟨fun _ _ _ h h' => le_trans h' h⟩

/-- Python's stable in-place sort with `reverse=True`, modelled as stable
insertion sort for the descending score order. -/
def pySortDesc (l : List ScoredItem) : List ScoredItem :=
  List.insertionSort scoreGE l

/-- The fixed result size of step 7 (`scored[:12]`). -/
def TOP_K : Nat := 12

/-- Steps 6-7 ranking: sort descending by score, keep the first 12. -/
def rankTop (scored : List ScoredItem) : List ScoredItem :=
  (pySortDesc scored).take TOP_K

/-- The `ProductOut` response model of `models.py`. -/
structure ProductOut where
  id : String
  title : String
  store : String
  url : String
  image : String
  price : Int
  mrp : Option Int
  sizes : Option (List String)
  tags : Option (List String)
  why : List String
deriving DecidableEq, Repr

/-- The `ProductOut(...)` construction of step 7:
`price=int(p["price"]) if p.get("price") is not None else 0`, the rest
copied through. -/
def productOut (p : Product) (why : List String) : ProductOut :=
  { id := p.id
    title := p.title
    store := p.store
    url := p.url
    image := p.image
    price := match p.price with | some v => v | none => 0
    mrp := p.mrp
    sizes := p.sizes
    tags := p.tags
    why := why }

/-- Steps 5-7 of `analyze_and_recommend`, from the already-fetched table
contents onward: filter, early-return on an empty candidate list, batch
score, zip products with scores, build reasons, sort and truncate. -/
def analyzeRecommend (products : List DBProduct) (priceRows : List PriceRow)
    (traits : Traits) (style : Style) (size : Option String)
    (env : ScorerEnv) (st : ScorerState) :
    Except String (List ProductOut × ScorerState) :=
  let filtered := candidates products priceRows
  if filtered.isEmpty then Except.ok ([], st)
  else
    match ml_predict_probas env st
        (filtered.map (fun p => row_from p traits style size)) with
    | Except.error e => Except.error e
    | Except.ok (probas, st') =>
      let scored : List ScoredItem :=
        (filtered.zip probas).map
          (fun ps => { score := ps.2, product := ps.1, why := buildWhy size ps.1 })
      Except.ok ((rankTop scored).map (fun t => productOut t.product t.why), st')

/-- The event literals of `TrackEvent` in `models.py`. -/
inductive EventKind where
  | click
  | like
  | hide
deriving DecidableEq, Repr

/-- The `TrackEvent` payload: exactly event kind, product id, session id —
there is no client-supplied timestamp field. -/
structure TrackEvent where
  event : EventKind
  product_id : String
  session_id : String
deriving DecidableEq, Repr

/-- The row inserted by the `/track` handler. -/
structure EngagementRecord where
  product_id : String
  session_id : String
  ts : Int
deriving DecidableEq, Repr

/-- The `/track` handler of `analyze.py`: choose the table by
`"clicks" if event == "click" else "likes" if event == "like" else "likes"`
and insert `{product_id, session_id, ts: int(time.time())}`; `now` is the
server clock reading. -/
def track (e : TrackEvent) (now : Int) : String × EngagementRecord :=
  let table :=
    if e.event = EventKind.click then "clicks"
    else if e.event = EventKind.like then "likes"
    else "likes"
  (table, { product_id := e.product_id, session_id := e.session_id, ts := now })

/-- `quick_traits_from_image` of `analyze_utils.py` (duplicated verbatim
in `main.py`), taken at the boundary after the PIL work: `cropPixels` is
the pixel data of the 32×32 grayscale centre crop, `mean` its average
brightness `sum(crop.getdata()) / (32 * 32)` (Python float division,
exact on these operands, hence `ℚ`). Only `skin_depth` depends on the
image; every other trait is a fixed constant. -/
def quick_traits_from_image (cropPixels : List ℕ) : Traits :=
  let mean : ℚ := (cropPixels.sum : ℚ) / (32 * 32)
  let skin_depth : String :=
    if mean > 180 then "light"
    else if mean > 110 then "medium"
    else "deep"
  { skin_temperature := "neutral"
    skin_depth := skin_depth
    hair_type := "unknown"
    hair_color := "unknown"
    frame := "regular"
    height_bucket := "avg"
    shoulders := "average" }

/-! ### Shared test fixtures -/

/-- A traits record matching the spec's end-to-end scenario. -/
def t0 : Traits :=
  { skin_temperature := "neutral", skin_depth := "medium",
    hair_type := "unknown", hair_color := "unknown", frame := "regular",
    height_bucket := "avg", shoulders := "average" }

/-- An in-stock, priced product stocking size "M". -/
def prodM : Product :=
  { id := "p1", title := "Tee", store := "s", url := "u", image := "i",
    tags := some ["casual", "navy"], price := some 999, mrp := some 1299,
    sizes := some ["M", "L"], in_stock := some true }

/-- A second in-stock, priced product without the size "M". -/
def prodL : Product :=
  { id := "p2", title := "Kurta", store := "s", url := "u2", image := "i2",
    tags := some ["traditional"], price := some 1499, mrp := none,
    sizes := some ["L"], in_stock := some true }

/-- A deterministic stand-in scorer: the row's price as the score. -/
def pricePipe : Pipe := fun r => (r.price : ℚ)

/-! ### Claim theorems -/

/-- C1: for every product, traits, style and size, `row_from` returns the
eleven-key row (`FeatureRow` has exactly the eleven fields of the Python
dict) where `price` is an integer, 0 when the product's price is null;
`color_tags` and `fit_tags` are both the semicolon-joined string of the
product's tags lowercased with empty tags dropped; `avoid_tags` is empty;
and the remaining six fields are copied verbatim from `style` and
`traits`. -/
theorem row_from_schema (prod : Product) (traits : Traits) (style : Style)
    (size : Option String) :
    (row_from prod traits style size).price =
      (match prod.price with | some v => v | none => 0)
    ∧ (prod.price = none → (row_from prod traits style size).price = 0)
    ∧ (row_from prod traits style size).color_tags =
        String.intercalate ";"
          (((prod.tags.getD []).map String.toLower).filter (fun t => !t.isEmpty))
    ∧ (row_from prod traits style size).fit_tags =
        (row_from prod traits style size).color_tags
    ∧ (row_from prod traits style size).avoid_tags = ""
    ∧ (row_from prod traits style size).style = style
    ∧ (row_from prod traits style size).skin_temperature = traits.skin_temperature
    ∧ (row_from prod traits style size).skin_depth = traits.skin_depth
    ∧ (row_from prod traits style size).frame = traits.frame
    ∧ (row_from prod traits style size).height_bucket = traits.height_bucket
    ∧ (row_from prod traits style size).shoulders = traits.shoulders := by
  refine ⟨?_, ?_, rfl, rfl, rfl, rfl, rfl, rfl, rfl, rfl, rfl⟩
  · obtain ⟨i, t, st, u, im, tg, pr, m, sz, ins⟩ := prod
    cases pr <;> rfl
  · intro h
    simp [row_from, h]

/-- C1 witness: the schema theorem at a concrete product with a null
price and mixed tags. -/
theorem row_from_schema_witness :
    let prod : Product :=
      { id := "p1", title := "Tee", store := "s", url := "u", image := "i",
        tags := some ["Navy", "", "CASUAL"], price := none, mrp := none,
        sizes := some ["M"], in_stock := some true }
    let traits : Traits :=
      { skin_temperature := "neutral", skin_depth := "medium",
        hair_type := "unknown", hair_color := "unknown", frame := "regular",
        height_bucket := "avg", shoulders := "average" }
    (row_from prod traits "casual" (some "M")).price =
      (match prod.price with | some v => v | none => 0)
    ∧ (prod.price = none → (row_from prod traits "casual" (some "M")).price = 0)
    ∧ (row_from prod traits "casual" (some "M")).color_tags =
        String.intercalate ";"
          (((prod.tags.getD []).map String.toLower).filter (fun t => !t.isEmpty))
    ∧ (row_from prod traits "casual" (some "M")).fit_tags =
        (row_from prod traits "casual" (some "M")).color_tags
    ∧ (row_from prod traits "casual" (some "M")).avoid_tags = ""
    ∧ (row_from prod traits "casual" (some "M")).style = "casual"
    ∧ (row_from prod traits "casual" (some "M")).skin_temperature =
        traits.skin_temperature
    ∧ (row_from prod traits "casual" (some "M")).skin_depth = traits.skin_depth
    ∧ (row_from prod traits "casual" (some "M")).frame = traits.frame
    ∧ (row_from prod traits "casual" (some "M")).height_bucket =
        traits.height_bucket
    ∧ (row_from prod traits "casual" (some "M")).shoulders = traits.shoulders :=
  row_from_schema _ _ _ _

/-- C2: `has_size` is 1 exactly when the size is present, non-empty and a
member of the product's sizes (missing sizes default to the empty list),
and 0 in every other case. -/
theorem row_from_has_size (prod : Product) (traits : Traits) (style : Style)
    (size : Option String) :
    ((row_from prod traits style size).has_size = 1 ↔
      ∃ s, size = some s ∧ s ≠ "" ∧ s ∈ prod.sizes.getD [])
    ∧ ((row_from prod traits style size).has_size = 0 ↔
      ¬ ∃ s, size = some s ∧ s ≠ "" ∧ s ∈ prod.sizes.getD []) := by
  cases size with
  | none => simp [row_from]
  | some s =>
    by_cases hs : s = ""
    · subst hs
      simp [row_from]
      intro h
      exact absurd h (by decide)
    · have hE : s.isEmpty = false := by
        cases h2 : s.isEmpty
        · rfl
        · exact absurd ((String.isEmpty_iff s).mp h2) hs
      by_cases hm : s ∈ prod.sizes.getD []
      · simp [row_from, hE, hm, hs]
      · simp [row_from, hE, hm, hs]

/-- C2 witness: a present size that is not stocked yields 0, via the
characterization. -/
theorem row_from_has_size_witness :
    let prod : Product :=
      { id := "p1", title := "Tee", store := "s", url := "u", image := "i",
        tags := none, price := some 999, mrp := none,
        sizes := some ["M", "L"], in_stock := some true }
    let traits : Traits :=
      { skin_temperature := "neutral", skin_depth := "medium",
        hair_type := "unknown", hair_color := "unknown", frame := "regular",
        height_bucket := "avg", shoulders := "average" }
    ((row_from prod traits "casual" (some "XL")).has_size = 1 ↔
      ∃ s, (some "XL" : Option String) = some s ∧ s ≠ "" ∧ s ∈ prod.sizes.getD [])
    ∧ ((row_from prod traits "casual" (some "XL")).has_size = 0 ↔
      ¬ ∃ s, (some "XL" : Option String) = some s ∧ s ≠ "" ∧ s ∈ prod.sizes.getD []) :=
  row_from_has_size _ _ _ _

/-- C9: `/track` routes "click" to the "clicks" sink and both "like" and
"hide" to the "likes" sink; the persisted record carries exactly the
payload's product and session ids and the server clock reading as `ts`,
identically for every payload (the payload has no timestamp field at
all). -/
theorem track_spec (e e2 : TrackEvent) (now : Int) :
    (track e now).1 =
      (match e.event with
       | EventKind.click => "clicks"
       | EventKind.like => "likes"
       | EventKind.hide => "likes")
    ∧ (track { event := EventKind.like, product_id := e.product_id,
               session_id := e.session_id } now).1 =
      (track { event := EventKind.hide, product_id := e.product_id,
               session_id := e.session_id } now).1
    ∧ (track e now).2 =
        { product_id := e.product_id, session_id := e.session_id, ts := now }
    ∧ (track e now).2.ts = (track e2 now).2.ts := by
  obtain ⟨ev, pid, sid⟩ := e
  cases ev <;> exact ⟨rfl, rfl, rfl, rfl⟩

/-- C10: the trait extractor returns constant values for every trait
except `skin_depth`, which is determined by the mean brightness of the
32×32 grayscale centre crop with thresholds 180 and 110; consequently the
feature rows built from its output always carry
neutral/regular/avg/average. -/
theorem quick_traits_spec (cropPixels : List ℕ) (p : Product) (style : Style)
    (size : Option String) :
    (quick_traits_from_image cropPixels).skin_temperature = "neutral"
    ∧ (quick_traits_from_image cropPixels).hair_type = "unknown"
    ∧ (quick_traits_from_image cropPixels).hair_color = "unknown"
    ∧ (quick_traits_from_image cropPixels).frame = "regular"
    ∧ (quick_traits_from_image cropPixels).height_bucket = "avg"
    ∧ (quick_traits_from_image cropPixels).shoulders = "average"
    ∧ (180 < (cropPixels.sum : ℚ) / (32 * 32) →
        (quick_traits_from_image cropPixels).skin_depth = "light")
    ∧ (110 < (cropPixels.sum : ℚ) / (32 * 32) →
        (cropPixels.sum : ℚ) / (32 * 32) ≤ 180 →
        (quick_traits_from_image cropPixels).skin_depth = "medium")
    ∧ ((cropPixels.sum : ℚ) / (32 * 32) ≤ 110 →
        (quick_traits_from_image cropPixels).skin_depth = "deep")
    ∧ (row_from p (quick_traits_from_image cropPixels) style size).skin_temperature
        = "neutral"
    ∧ (row_from p (quick_traits_from_image cropPixels) style size).frame
        = "regular"
    ∧ (row_from p (quick_traits_from_image cropPixels) style size).height_bucket
        = "avg"
    ∧ (row_from p (quick_traits_from_image cropPixels) style size).shoulders
        = "average" := by
  refine ⟨rfl, rfl, rfl, rfl, rfl, rfl, ?_, ?_, ?_, rfl, rfl, rfl, rfl⟩
  · intro h
    simp only [quick_traits_from_image]
    rw [if_pos h]
  · intro h1 h2
    simp only [quick_traits_from_image]
    rw [if_neg (not_lt.mpr h2), if_pos h1]
  · intro h
    have h180 : ¬ (180 : ℚ) < (cropPixels.sum : ℚ) / (32 * 32) :=
      not_lt.mpr (h.trans (by norm_num))
    simp only [quick_traits_from_image]
    rw [if_neg h180, if_neg (not_lt.mpr h)]

/-- C10 witness: an all-dark crop (every pixel 0) lands in the "deep"
bucket and produces the constant traits. -/
theorem quick_traits_spec_witness :
    let cropPixels : List ℕ := List.replicate 1024 0
    let p : Product :=
      { id := "p1", title := "Tee", store := "s", url := "u", image := "i",
        tags := none, price := some 999, mrp := none,
        sizes := some ["M"], in_stock := some true }
    (quick_traits_from_image cropPixels).skin_temperature = "neutral"
    ∧ (quick_traits_from_image cropPixels).hair_type = "unknown"
    ∧ (quick_traits_from_image cropPixels).hair_color = "unknown"
    ∧ (quick_traits_from_image cropPixels).frame = "regular"
    ∧ (quick_traits_from_image cropPixels).height_bucket = "avg"
    ∧ (quick_traits_from_image cropPixels).shoulders = "average"
    ∧ (180 < (cropPixels.sum : ℚ) / (32 * 32) →
        (quick_traits_from_image cropPixels).skin_depth = "light")
    ∧ (110 < (cropPixels.sum : ℚ) / (32 * 32) →
        (cropPixels.sum : ℚ) / (32 * 32) ≤ 180 →
        (quick_traits_from_image cropPixels).skin_depth = "medium")
    ∧ ((cropPixels.sum : ℚ) / (32 * 32) ≤ 110 →
        (quick_traits_from_image cropPixels).skin_depth = "deep")
    ∧ (row_from p (quick_traits_from_image cropPixels) "casual" (some "M")).skin_temperature
        = "neutral"
    ∧ (row_from p (quick_traits_from_image cropPixels) "casual" (some "M")).frame
        = "regular"
    ∧ (row_from p (quick_traits_from_image cropPixels) "casual" (some "M")).height_bucket
        = "avg"
    ∧ (row_from p (quick_traits_from_image cropPixels) "casual" (some "M")).shoulders
        = "average" :=
  quick_traits_spec _ _ _ _

/-- C3: with the pipeline cached, `ml_predict_probas` succeeds and
returns per-row scores in input order: the output is exactly the map of
the scorer over the rows, it has the input's length, its i-th element is
the score of the i-th row, and the caller's positional zip of products
with scores pairs each product with the score of its own feature row. -/
theorem ml_predict_probas_order (env : ScorerEnv) (st : ScorerState)
    (pipe : Pipe) (rows : List FeatureRow) (filtered : List Product)
    (traits : Traits) (style : Style) (size : Option String) (i : Nat)
    (hc : st.cache = some pipe) (hi : i < rows.length) :
    ml_predict_probas env st rows = Except.ok (rows.map pipe, st)
    ∧ (rows.map pipe).length = rows.length
    ∧ (rows.map pipe)[i]? = some (pipe rows[i])
    ∧ (rows = filtered.map (fun p => row_from p traits style size) →
        filtered.zip (rows.map pipe) =
          filtered.map (fun p => (p, pipe (row_from p traits style size)))) := by
  refine ⟨?_, List.length_map _ _, ?_, ?_⟩
  · cases rows with
    | nil => simp [ml_predict_probas, load_pipe, hc]
    | cons r rs => simp [ml_predict_probas, load_pipe, hc]
  · rw [List.getElem?_map, List.getElem?_eq_getElem hi]
    rfl
  · intro h
    subst h
    rw [List.map_map]
    have hz := List.zip_map' id
      (pipe ∘ fun p => row_from p traits style size) filtered
    simpa using hz

/-- C3 witness: the order theorem at a two-product batch with the price
scorer cached, index 1. -/
theorem ml_predict_probas_order_witness :
    ml_predict_probas { modelExists := true, diskPipe := pricePipe }
        { cache := some pricePipe, loadCount := 3 }
        ([prodM, prodL].map (fun p => row_from p t0 "casual" (some "M")))
      = Except.ok
          (([prodM, prodL].map (fun p => row_from p t0 "casual" (some "M"))).map
            pricePipe,
           { cache := some pricePipe, loadCount := 3 })
    ∧ (([prodM, prodL].map (fun p => row_from p t0 "casual" (some "M"))).map
        pricePipe).length =
      ([prodM, prodL].map (fun p => row_from p t0 "casual" (some "M"))).length
    ∧ (([prodM, prodL].map (fun p => row_from p t0 "casual" (some "M"))).map
        pricePipe)[1]? =
      some (pricePipe
        ([prodM, prodL].map (fun p => row_from p t0 "casual" (some "M")))[1])
    ∧ (([prodM, prodL].map (fun p => row_from p t0 "casual" (some "M"))) =
        [prodM, prodL].map (fun p => row_from p t0 "casual" (some "M")) →
        [prodM, prodL].zip
            (([prodM, prodL].map (fun p => row_from p t0 "casual" (some "M"))).map
              pricePipe) =
          [prodM, prodL].map
            (fun p => (p, pricePipe (row_from p t0 "casual" (some "M"))))) :=
  ml_predict_probas_order _ _ pricePipe _ [prodM, prodL] t0 "casual"
    (some "M") 1 rfl (by simp)

/-- C4 counterexample: with an empty cache and a missing artifact, the
empty-batch call fails with the configuration error instead of returning
the empty list — the load step runs before the empty-input check. -/
theorem ml_predict_probas_empty_missing_cex :
    ml_predict_probas { modelExists := false, diskPipe := fun _ => 0 }
        { cache := none, loadCount := 0 } []
      = Except.error modelNotFoundMsg := rfl

/-- C4 amended: on empty input the batch scorer returns the empty list
without scoring any row, but the model-loading step IS triggered first:
with a cached pipe the state is unchanged, with an empty cache and an
existing artifact the load counter increments, and with an empty cache
and a missing artifact the call fails with the configuration error. -/
theorem ml_predict_probas_empty (env : ScorerEnv) (st : ScorerState) :
    ml_predict_probas env st [] =
      (match st.cache with
       | some _ => Except.ok ([], st)
       | none =>
         if env.modelExists then
           Except.ok ([],
             { cache := some env.diskPipe, loadCount := st.loadCount + 1 })
         else Except.error modelNotFoundMsg) := by
  obtain ⟨c, n⟩ := st
  cases c with
  | some p => rfl
  | none =>
    by_cases h : env.modelExists
    · simp [ml_predict_probas, load_pipe, h]
    · simp [ml_predict_probas, load_pipe, h]

/-- C8: the model cache protocol of `_load_pipe`: a missing artifact with
an empty cache makes every scoring call fail with the error naming the
expected path and the training command; with the artifact present the
first call loads and caches it (one file read); once cached, calls reuse
the cached pipe with the state — in particular the read counter —
untouched. -/
theorem load_pipe_spec (env : ScorerEnv) (st : ScorerState) (p : Pipe)
    (rows : List FeatureRow) :
    (st.cache = none → env.modelExists = false →
        load_pipe env st = Except.error modelNotFoundMsg
        ∧ ml_predict_probas env st rows = Except.error modelNotFoundMsg
        ∧ modelNotFoundMsg =
            "Model not found at " ++ MODEL_PATH ++ ". Train it with: " ++ TRAIN_CMD)
    ∧ (st.cache = none → env.modelExists = true →
        load_pipe env st =
          Except.ok (env.diskPipe,
            { cache := some env.diskPipe, loadCount := st.loadCount + 1 }))
    ∧ (st.cache = some p → load_pipe env st = Except.ok (p, st)) := by
  obtain ⟨c, n⟩ := st
  refine ⟨?_, ?_, ?_⟩
  · intro hc h
    cases hc
    exact ⟨by simp [load_pipe, h], by simp [ml_predict_probas, load_pipe, h], rfl⟩
  · intro hc h
    cases hc
    simp [load_pipe, h]
  · intro hc
    cases hc
    simp [load_pipe]

/-- C8 witness: the cache protocol at a fresh state with a missing
artifact (first clause live, the others vacuous). -/
theorem load_pipe_spec_witness :
    ((none : Option Pipe) = none → false = false →
        load_pipe { modelExists := false, diskPipe := pricePipe }
            { cache := none, loadCount := 0 } = Except.error modelNotFoundMsg
        ∧ ml_predict_probas { modelExists := false, diskPipe := pricePipe }
            { cache := none, loadCount := 0 }
            [row_from prodM t0 "casual" (some "M")] =
          Except.error modelNotFoundMsg
        ∧ modelNotFoundMsg =
            "Model not found at " ++ MODEL_PATH ++ ". Train it with: " ++ TRAIN_CMD)
    ∧ ((none : Option Pipe) = none → false = true →
        load_pipe { modelExists := false, diskPipe := pricePipe }
            { cache := none, loadCount := 0 } =
          Except.ok (pricePipe, { cache := some pricePipe, loadCount := 0 + 1 }))
    ∧ ((none : Option Pipe) = some pricePipe →
        load_pipe { modelExists := false, diskPipe := pricePipe }
            { cache := none, loadCount := 0 } =
          Except.ok (pricePipe, { cache := none, loadCount := 0 })) :=
  load_pipe_spec { modelExists := false, diskPipe := pricePipe }
    { cache := none, loadCount := 0 } pricePipe
    [row_from prodM t0 "casual" (some "M")]

/-- Helper: inserting into the descending order behaves, on the
subsequence of any fixed score, like consing in front — elements skipped
over have strictly greater scores. -/
theorem filter_score_orderedInsert (x : ScoredItem) (l : List ScoredItem)
    (q : ℚ) :
    (List.orderedInsert scoreGE x l).filter (fun t => t.score == q) =
      (x :: l).filter (fun t => t.score == q) := by
  induction l with
  | nil => rfl
  | cons y ys ih =>
    by_cases h : scoreGE x y
    · simp only [List.orderedInsert, if_pos h]
    · have hxy : x.score < y.score := lt_of_not_le h
      simp only [List.orderedInsert, if_neg h]
      by_cases hy : y.score = q
      · have hx : ¬ x.score = q := by
          rw [← hy]
          exact ne_of_lt hxy
        simp [List.filter_cons, hy, hx, ih]
      · simp [List.filter_cons, hy, ih]

/-- Helper: the modelled Python sort is stable — it preserves the
relative order of elements sharing a score. -/
theorem filter_score_pySortDesc (l : List ScoredItem) (q : ℚ) :
    (pySortDesc l).filter (fun t => t.score == q) =
      l.filter (fun t => t.score == q) := by
  induction l with
  | nil => rfl
  | cons x xs ih =>
    have hstep : pySortDesc (x :: xs) =
        List.orderedInsert scoreGE x (pySortDesc xs) := rfl
    rw [hstep, filter_score_orderedInsert]
    by_cases hx : x.score = q <;> simp [List.filter_cons, hx, ih]

/-- C5: the ranked result is the candidate list stably sorted by score
descending, truncated to the first 12: it is the 12-prefix of a sorted
permutation of the input that preserves the relative order of
equal-score elements, and when at most 12 candidates exist all of them
are returned in sorted order. -/
theorem rankTop_spec (scored : List ScoredItem) (q : ℚ) :
    rankTop scored = (pySortDesc scored).take 12
    ∧ (rankTop scored).length = min 12 scored.length
    ∧ List.Sorted scoreGE (rankTop scored)
    ∧ List.Perm (pySortDesc scored) scored
    ∧ (pySortDesc scored).filter (fun t => t.score == q) =
        scored.filter (fun t => t.score == q)
    ∧ (scored.length ≤ 12 → rankTop scored = pySortDesc scored) := by
  refine ⟨rfl, ?_, ?_, List.perm_insertionSort scoreGE scored,
    filter_score_pySortDesc scored q, ?_⟩
  · simp [rankTop, TOP_K, pySortDesc, List.length_take]
  · exact List.Pairwise.sublist (List.take_sublist _ _)
      (List.sorted_insertionSort scoreGE scored)
  · intro hle
    rw [rankTop]
    apply List.take_of_length_le
    rw [pySortDesc, List.length_insertionSort]
    exact hle

/-- C5 witness: the ranking theorem at the spec's 0.9/0.3/0.7 example
extended with an equal-score pair, at the tied score. -/
theorem rankTop_spec_witness :
    rankTop [⟨9/10, prodM, ["a"]⟩, ⟨3/10, prodL, ["b"]⟩,
        ⟨7/10, prodM, ["c"]⟩, ⟨3/10, prodM, ["d"]⟩] =
      (pySortDesc [⟨9/10, prodM, ["a"]⟩, ⟨3/10, prodL, ["b"]⟩,
        ⟨7/10, prodM, ["c"]⟩, ⟨3/10, prodM, ["d"]⟩]).take 12
    ∧ (rankTop [⟨9/10, prodM, ["a"]⟩, ⟨3/10, prodL, ["b"]⟩,
        ⟨7/10, prodM, ["c"]⟩, ⟨3/10, prodM, ["d"]⟩]).length =
      min 12 ([⟨9/10, prodM, ["a"]⟩, ⟨3/10, prodL, ["b"]⟩,
        ⟨7/10, prodM, ["c"]⟩, ⟨3/10, prodM, ["d"]⟩] : List ScoredItem).length
    ∧ List.Sorted scoreGE (rankTop [⟨9/10, prodM, ["a"]⟩, ⟨3/10, prodL, ["b"]⟩,
        ⟨7/10, prodM, ["c"]⟩, ⟨3/10, prodM, ["d"]⟩])
    ∧ List.Perm (pySortDesc [⟨9/10, prodM, ["a"]⟩, ⟨3/10, prodL, ["b"]⟩,
        ⟨7/10, prodM, ["c"]⟩, ⟨3/10, prodM, ["d"]⟩])
        [⟨9/10, prodM, ["a"]⟩, ⟨3/10, prodL, ["b"]⟩,
          ⟨7/10, prodM, ["c"]⟩, ⟨3/10, prodM, ["d"]⟩]
    ∧ (pySortDesc [⟨9/10, prodM, ["a"]⟩, ⟨3/10, prodL, ["b"]⟩,
        ⟨7/10, prodM, ["c"]⟩, ⟨3/10, prodM, ["d"]⟩]).filter
          (fun t => t.score == 3/10) =
      ([⟨9/10, prodM, ["a"]⟩, ⟨3/10, prodL, ["b"]⟩,
        ⟨7/10, prodM, ["c"]⟩, ⟨3/10, prodM, ["d"]⟩] : List ScoredItem).filter
          (fun t => t.score == 3/10)
    ∧ (([⟨9/10, prodM, ["a"]⟩, ⟨3/10, prodL, ["b"]⟩,
        ⟨7/10, prodM, ["c"]⟩, ⟨3/10, prodM, ["d"]⟩] : List ScoredItem).length ≤ 12 →
        rankTop [⟨9/10, prodM, ["a"]⟩, ⟨3/10, prodL, ["b"]⟩,
          ⟨7/10, prodM, ["c"]⟩, ⟨3/10, prodM, ["d"]⟩] =
        pySortDesc [⟨9/10, prodM, ["a"]⟩, ⟨3/10, prodL, ["b"]⟩,
          ⟨7/10, prodM, ["c"]⟩, ⟨3/10, prodM, ["d"]⟩]) :=
  rankTop_spec _ (3/10)

/-- Helper: membership in the candidate list, characterized over the raw
tables: exactly the products with a joined price row whose stock flag is
not false and whose price is present. -/
theorem mem_candidates_iff (products : List DBProduct)
    (priceRows : List PriceRow) (p : Product) :
    p ∈ candidates products priceRows ↔
      ∃ dp, dp ∈ products ∧ ∃ pr, priceMapGet priceRows dp.id = some pr
        ∧ p = enrichOne dp pr ∧ pr.in_stock.getD true = true
        ∧ pr.price.isSome = true := by
  unfold candidates enrich
  rw [List.mem_filter, List.mem_filterMap]
  constructor
  · rintro ⟨⟨dp, hdp, hmap⟩, hkeep⟩
    cases hpr : priceMapGet priceRows dp.id with
    | none =>
      rw [hpr] at hmap
      cases hmap
    | some pr =>
      rw [hpr] at hmap
      obtain rfl : enrichOne dp pr = p := Option.some.inj hmap
      have hk : (pr.in_stock.getD true && pr.price.isSome) = true := by
        simpa [keepCandidate, enrichOne] using hkeep
      rw [Bool.and_eq_true] at hk
      exact ⟨dp, hdp, pr, hpr, rfl, hk.1, hk.2⟩
  · rintro ⟨dp, hdp, pr, hpr, rfl, hstock, hprice⟩
    refine ⟨⟨dp, hdp, by rw [hpr]; rfl⟩, ?_⟩
    simp [keepCandidate, enrichOne, hstock, hprice]

/-- C6: the candidate list fed to feature-row construction and scoring
contains exactly the products that joined a price row with a non-false
stock flag and a present price (so it never contains an out-of-stock or
priceless product, and no size or budget condition is applied); every
item of a successful response comes from that candidate list. -/
theorem candidates_spec (products : List DBProduct) (priceRows : List PriceRow)
    (p : Product) (traits : Traits) (style : Style) (size : Option String)
    (env : ScorerEnv) (st : ScorerState) (out : List ProductOut)
    (st2 : ScorerState) (o : ProductOut)
    (hrun : analyzeRecommend products priceRows traits style size env st =
      Except.ok (out, st2))
    (ho : o ∈ out) :
    (p ∈ candidates products priceRows ↔
      ∃ dp, dp ∈ products ∧ ∃ pr, priceMapGet priceRows dp.id = some pr
        ∧ p = enrichOne dp pr ∧ pr.in_stock.getD true = true
        ∧ pr.price.isSome = true)
    ∧ (p ∈ candidates products priceRows →
        p.in_stock = some true ∧ p.price.isSome = true)
    ∧ o ∈ (candidates products priceRows).map
        (fun c => productOut c (buildWhy size c)) := by
  refine ⟨mem_candidates_iff products priceRows p, ?_, ?_⟩
  · intro hp
    obtain ⟨dp, _, pr, _, rfl, hstock, hprice⟩ :=
      (mem_candidates_iff products priceRows p).mp hp
    exact ⟨by simp [enrichOne, hstock], by simpa [enrichOne] using hprice⟩
  · simp only [analyzeRecommend] at hrun
    by_cases hemp : (candidates products priceRows).isEmpty
    · rw [if_pos hemp] at hrun
      obtain ⟨hOut, _⟩ := Prod.mk.inj (Except.ok.inj hrun)
      rw [← hOut] at ho
      cases ho
    · rw [if_neg hemp] at hrun
      cases hml : ml_predict_probas env st ((candidates products priceRows).map
          (fun c => row_from c traits style size)) with
      | error e =>
        rw [hml] at hrun
        simp at hrun
      | ok res =>
        rw [hml] at hrun
        obtain ⟨probas, st3⟩ := res
        simp only [Except.ok.injEq, Prod.mk.injEq] at hrun
        obtain ⟨hOut, hSt⟩ := hrun
        rw [← hOut] at ho
        obtain ⟨t, ht, rfl⟩ := List.mem_map.mp ho
        have ht2 : t ∈ pySortDesc (((candidates products priceRows).zip probas).map
            (fun ps => ⟨ps.2, ps.1, buildWhy size ps.1⟩ : _ → ScoredItem)) :=
          (List.take_sublist _ _).mem ht
        have ht3 : t ∈ ((candidates products priceRows).zip probas).map
            (fun ps => (⟨ps.2, ps.1, buildWhy size ps.1⟩ : ScoredItem)) := by
          simpa [pySortDesc] using ht2
        obtain ⟨ps, hps, rfl⟩ := List.mem_map.mp ht3
        exact List.mem_map.mpr ⟨ps.1, (List.of_mem_zip hps).1, rfl⟩

/-- A bare catalog product that joins `priceRow1`. -/
def dbP1 : DBProduct :=
  { id := "p1", title := "Tee", store := "s", url := "u", image := "i",
    tags := some ["casual", "navy"] }

/-- A bare catalog product whose price row has a null price. -/
def dbP2 : DBProduct :=
  { id := "p2", title := "Shirt", store := "s", url := "u2", image := "i2",
    tags := some ["casual"] }

/-- Price row for `dbP1`: in stock, priced, stocking "M". -/
def priceRow1 : PriceRow :=
  { product_id := "p1", price := some 999, mrp := some 1299,
    sizes := some ["M", "L"], in_stock := some true }

/-- Price row for `dbP2` with a null price (must be filtered out). -/
def priceRow2 : PriceRow :=
  { product_id := "p2", price := none, mrp := none,
    sizes := some ["M"], in_stock := some true }

/-- C6 witness: a concrete end-to-end run — the priceless product is
dropped, the surviving candidate is characterized by the iff, and the
single response item comes from the candidate list. -/
theorem candidates_spec_witness :
    analyzeRecommend [dbP1, dbP2] [priceRow1, priceRow2] t0 "casual" (some "M")
        { modelExists := true, diskPipe := pricePipe }
        { cache := some pricePipe, loadCount := 1 } =
      Except.ok ([productOut (enrichOne dbP1 priceRow1)
          (buildWhy (some "M") (enrichOne dbP1 priceRow1))],
        { cache := some pricePipe, loadCount := 1 })
    ∧ (productOut (enrichOne dbP1 priceRow1)
          (buildWhy (some "M") (enrichOne dbP1 priceRow1)) ∈
        [productOut (enrichOne dbP1 priceRow1)
          (buildWhy (some "M") (enrichOne dbP1 priceRow1))])
    ∧ ((enrichOne dbP1 priceRow1 ∈ candidates [dbP1, dbP2] [priceRow1, priceRow2] ↔
        ∃ dp, dp ∈ [dbP1, dbP2] ∧
          ∃ pr, priceMapGet [priceRow1, priceRow2] dp.id = some pr
            ∧ enrichOne dbP1 priceRow1 = enrichOne dp pr
            ∧ pr.in_stock.getD true = true ∧ pr.price.isSome = true)
      ∧ (enrichOne dbP1 priceRow1 ∈ candidates [dbP1, dbP2] [priceRow1, priceRow2] →
          (enrichOne dbP1 priceRow1).in_stock = some true
          ∧ (enrichOne dbP1 priceRow1).price.isSome = true)
      ∧ productOut (enrichOne dbP1 priceRow1)
          (buildWhy (some "M") (enrichOne dbP1 priceRow1)) ∈
        (candidates [dbP1, dbP2] [priceRow1, priceRow2]).map
          (fun c => productOut c (buildWhy (some "M") c))) :=
  ⟨rfl, by simp,
    candidates_spec [dbP1, dbP2] [priceRow1, priceRow2]
      (enrichOne dbP1 priceRow1) t0 "casual" (some "M")
      { modelExists := true, diskPipe := pricePipe }
      { cache := some pricePipe, loadCount := 1 }
      [productOut (enrichOne dbP1 priceRow1)
        (buildWhy (some "M") (enrichOne dbP1 priceRow1))]
      { cache := some pricePipe, loadCount := 1 }
      (productOut (enrichOne dbP1 priceRow1)
        (buildWhy (some "M") (enrichOne dbP1 priceRow1)))
      rfl (by simp)⟩

/-- Helper: the Python truthiness test `size and size in sizes` holds
exactly when a non-empty size is stocked. -/
theorem sizeHit_iff (size : Option String) (p : Product) :
    sizeHit size p = true ↔
      ∃ s, size = some s ∧ s ≠ "" ∧ s ∈ p.sizes.getD [] := by
  cases size with
  | none => simp [sizeHit]
  | some s =>
    by_cases hs : s = ""
    · subst hs
      simp [sizeHit]
      intro h
      exact absurd h (by decide)
    · have hE : s.isEmpty = false := by
        cases h2 : s.isEmpty
        · rfl
        · exact absurd ((String.isEmpty_iff s).mp h2) hs
      by_cases hm : s ∈ p.sizes.getD [] <;> simp [sizeHit, hE, hm, hs]

/-- Helper: the formatted price reason is never the fallback reason. -/
theorem price_why_ne (v : Int) :
    ("price ₹" ++ toString v) ≠ "good predicted match" := by
  intro h
  have hd := congrArg String.data h
  rw [String.data_append] at hd
  have h1 : "price ₹".data = 'p' :: "rice ₹".data := rfl
  have h2 : "good predicted match".data = 'g' :: "ood predicted match".data := rfl
  rw [h1, h2, List.cons_append] at hd
  exact absurd (List.cons.inj hd).1 (by decide)

/-- Spec-side restatement of the explanation rules (§4.4): the size
reason, then the price reason, then the single fallback exactly when
neither applied. -/
def specExplanation (size : Option String) (p : Product) : List String :=
  let sizeReason : List String :=
    match size with
    | some s =>
      if s ≠ "" ∧ s ∈ p.sizes.getD [] then ["in stock in your size"] else []
    | none => []
  let priceReason : List String :=
    match p.price with
    | some v => ["price ₹" ++ toString v]
    | none => []
  if sizeReason = [] ∧ priceReason = [] then ["good predicted match"]
  else sizeReason ++ priceReason

/-- C7: the explanation list equals the spec's fixed-precedence
construction, and it is the lone fallback reason exactly when neither the
size reason nor the price reason applied. -/
theorem buildWhy_spec (size : Option String) (p : Product) :
    buildWhy size p = specExplanation size p
    ∧ (buildWhy size p = ["good predicted match"] ↔
        ¬ ((∃ s, size = some s ∧ s ≠ "" ∧ s ∈ p.sizes.getD []) ∨
            p.price.isSome = true)) := by
  cases size with
  | none =>
    cases hp : p.price with
    | some v =>
      exact ⟨by simp [buildWhy, specExplanation, sizeHit, hp],
        by simp [buildWhy, sizeHit, hp, price_why_ne v]⟩
    | none =>
      exact ⟨by simp [buildWhy, specExplanation, sizeHit, hp],
        by simp [buildWhy, sizeHit, hp]⟩
  | some s =>
    by_cases hs : s = ""
    · subst hs
      have hEE : ("" : String).isEmpty = true := rfl
      cases hp : p.price with
      | some v =>
        exact ⟨by simp [buildWhy, specExplanation, sizeHit, hp, hEE],
          by simp [buildWhy, sizeHit, hp, hEE, price_why_ne v]⟩
      | none =>
        exact ⟨by simp [buildWhy, specExplanation, sizeHit, hp, hEE],
          by simp [buildWhy, sizeHit, hp, hEE]⟩
    · have hE : s.isEmpty = false := by
        cases h2 : s.isEmpty
        · rfl
        · exact absurd ((String.isEmpty_iff s).mp h2) hs
      by_cases hm : s ∈ p.sizes.getD []
      · cases hp : p.price with
        | some v =>
          exact ⟨by simp [buildWhy, specExplanation, sizeHit, hE, hm, hs, hp],
            by simp [buildWhy, sizeHit, hE, hm, hs, hp]⟩
        | none =>
          exact ⟨by simp [buildWhy, specExplanation, sizeHit, hE, hm, hs, hp],
            by simp [buildWhy, sizeHit, hE, hm, hs, hp]⟩
      · cases hp : p.price with
        | some v =>
          exact ⟨by simp [buildWhy, specExplanation, sizeHit, hE, hm, hs, hp],
            by simp [buildWhy, sizeHit, hE, hm, hs, hp, price_why_ne v]⟩
        | none =>
          exact ⟨by simp [buildWhy, specExplanation, sizeHit, hE, hm, hs, hp],
            by simp [buildWhy, sizeHit, hE, hm, hs, hp]⟩

/-- C7 witness: the explanation theorem at a priceless product without
the requested size, where only the fallback reason fires. -/
theorem buildWhy_spec_witness :
    buildWhy (some "M")
        { id := "p3", title := "Cap", store := "s", url := "u3", image := "i3",
          tags := none, price := none, mrp := none, sizes := some [],
          in_stock := some true } =
      specExplanation (some "M")
        { id := "p3", title := "Cap", store := "s", url := "u3", image := "i3",
          tags := none, price := none, mrp := none, sizes := some [],
          in_stock := some true }
    ∧ (buildWhy (some "M")
          { id := "p3", title := "Cap", store := "s", url := "u3", image := "i3",
            tags := none, price := none, mrp := none, sizes := some [],
            in_stock := some true } = ["good predicted match"] ↔
        ¬ ((∃ s, (some "M" : Option String) = some s ∧ s ≠ "" ∧
              s ∈ (Product.sizes
                { id := "p3", title := "Cap", store := "s", url := "u3",
                  image := "i3", tags := none, price := none, mrp := none,
                  sizes := some [], in_stock := some true }).getD []) ∨
            (Product.price
              { id := "p3", title := "Cap", store := "s", url := "u3",
                image := "i3", tags := none, price := none, mrp := none,
                sizes := some [], in_stock := some true }).isSome = true)) :=
  buildWhy_spec (some "M") _

end FitLens
